import Mathlib

/-!
Verification of the krea-video-bot realtime server
(src/webapp/server/whep-client.js: WHEPClient + the Express/WebSocket server).

The JavaScript program is shallowly embedded: each class becomes a structure,
each method a pure function on that structure.  Asynchronous methods
(`requestGeneration`, `startWhepConnection`) are split at their `await`
suspension points into a synchronous prefix and an explicit continuation that
takes the awaited result (`Except`-valued, modelling a resolved or rejected
promise).  Timers are modelled by an explicit armed-timer field plus a `fire`
step; timestamps (`Date.now()`) are passed in as `Nat` parameters.
-/

namespace KreaVideoBot

/-- The values taken by `appState.streamStatus` (`'idle' | 'starting' |
'active' | 'error'`). -/
inductive StreamStatus where
  | idle
  | starting
  | active
  | error
deriving DecidableEq, Repr

/-- A broadcast event.  The code sends objects `{type, content|data,
timestamp}`; the payload (`content` or `data`) is modelled as a single string
rendering and the timestamp is irrelevant to every property proved here. -/
structure Msg where
  type : String
  content : String
deriving DecidableEq, Repr

/-- An entry of `appState.messages`, the bounded broadcast history. -/
structure HistEntry where
  type : String
  content : String
deriving DecidableEq, Repr

/-- The history entry `broadcast` stores for an eligible event (it copies
`message.type` and `message.content`; `id`/`timestamp` are dropped as
irrelevant to the properties proved here). -/
def msgEntry (m : Msg) : HistEntry :=
  { type := m.type, content := m.content }

/-- A WebSocket client as `AppState.broadcast` observes it: its
`readyState` (1 = OPEN) and whether `ws.send` throws. -/
structure Client where
  readyState : Nat
  sendFails : Bool
deriving DecidableEq, Repr

/-- The per-session frame bookkeeping of `FrameStreamer` (`hasFrames`,
`frameCount`; `frameInterval` and the waiting image are irrelevant here). -/
structure FrameStreamer where
  hasFrames : Bool
  frameCount : Nat
deriving DecidableEq, Repr

/-- Models `appState.currentStream`, set by the `onConnect` handler:
`{id: this.currentStreamId, whepUrl, startTime: Date.now()}`. -/
structure StreamRec where
  id : Option String
  whepUrl : String
  startTime : Nat
deriving DecidableEq, Repr

/-- The mutable fields of `AppState` that the verified behaviour touches. -/
structure AppState where
  clients : List (String × Client)
  messages : List HistEntry
  currentStream : Option StreamRec
  streamStatus : StreamStatus
  frameStreamer : FrameStreamer
  lastFrameTime : Nat
  generationInProgress : Bool
deriving DecidableEq, Repr

/-- The event types stored in history:
`['thought', 'prompt', 'video_generation', 'error']`. -/
def historyTypes : List String := ["thought", "prompt", "video_generation", "error"]

/-- Models `xs.slice(-n)` on a JavaScript array: the last `min n xs.length`
elements, in order. -/
def sliceLast {α : Type} (n : Nat) (xs : List α) : List α :=
  (xs.reverse.take n).reverse

/-- The history-append step of `AppState.broadcast`: push the entry for an
eligible event, then `if (this.messages.length > 50) this.messages =
this.messages.slice(-50)`. -/
def pushHistory (m : Msg) (msgs : List HistEntry) : List HistEntry :=
  if m.type ∈ historyTypes then
    let appended := msgs ++ [msgEntry m]
    if 50 < appended.length then sliceLast 50 appended else appended
  else msgs

/-- Models `JSON.stringify(message)`: the single serialization of an event
performed by `broadcast` before the delivery loop. -/
def serialize (m : Msg) : String :=
  "\x7b\"type\":\"" ++ m.type ++ "\",\"content\":\"" ++ m.content ++ "\"\x7d"

/-- Observable side effects of one `broadcast` call, in program order. -/
inductive Effect where
  | serialized (payload : String)
  | sent (id : String) (payload : String)
  | removed (id : String)
deriving DecidableEq, Repr

/-- Recognizes a serialization effect. -/
def isSerializedEff : Effect → Bool
  | Effect.serialized _ => true
  | _ => false

/-- The delivery loop of `AppState.broadcast`: for each client in order,
if `ws.readyState === 1` then try `ws.send(data)`, and on a throw remove the
client (`this.removeClient(id)`); closed clients are skipped.  Returns the
surviving registry and the effect trace. -/
def deliverLoop (payload : String) : List (String × Client) → List (String × Client) × List Effect
  | [] => ([], [])
  | (id, c) :: rest =>
    let r := deliverLoop payload rest
    if c.readyState == 1 then
      if c.sendFails then
        (r.1, Effect.removed id :: r.2)
      else
        ((id, c) :: r.1, Effect.sent id payload :: r.2)
    else
      ((id, c) :: r.1, r.2)

/-- Models `AppState.broadcast(message)`: append to bounded history when eligible,
serialize once, then run the delivery loop. -/
def broadcast (m : Msg) (s : AppState) : AppState × List Effect :=
  let withHist := { s with messages := pushHistory m s.messages }
  let payload := serialize m
  let r := deliverLoop payload withHist.clients
  ({ withHist with clients := r.1 }, Effect.serialized payload :: r.2)

/-- Folds a sequence of `broadcast` calls over the state (delivery traces
dropped). -/
def broadcastSeq : List Msg → AppState → AppState
  | [], s => s
  | m :: ms, s => broadcastSeq ms (broadcast m s).1

/-- The `AppState` produced by the `AppState` constructor. -/
def initAppState : AppState :=
  { clients := []
    messages := []
    currentStream := none
    streamStatus := StreamStatus.idle
    frameStreamer := { hasFrames := false, frameCount := 0 }
    lastFrameTime := 0
    generationInProgress := false }

/-- The configured `CONFIG.GENERATION_TIMEOUT` (10 seconds). -/
def GENERATION_TIMEOUT_MS : Nat := 10000

/-- The `WHEPClient` object held in `videoGenerator.whepConnection`, reduced
to the fields the orchestrator-level properties observe. -/
structure WhepConn where
  whepUrl : String
  isConnected : Bool
deriving DecidableEq, Repr

/-- The `VideoGenerator` instance fields.  `generationTimeout` holds the
armed `setTimeout` duration (`none` when no pending timer exists, matching
`clearTimeout` + `null`, or a timer that already fired). -/
structure VideoGen where
  currentStreamId : Option String
  whepConnection : Option WhepConn
  generationTimeout : Option Nat
deriving DecidableEq, Repr

/-- The `LLMBot` instance fields the scheduler properties observe. -/
structure LLMBot where
  currentThought : String
  lastPrompt : String
deriving DecidableEq, Repr

/-- The whole server process state: the global `appState`, `videoGenerator`
and `appState.llmBot` instances. -/
structure Sys where
  app : AppState
  gen : VideoGen
  bot : LLMBot
deriving DecidableEq, Repr

/-- Models `appState.broadcast(m)` as seen from the orchestrator: only the state
effect (the effect trace is examined separately through `broadcast`). -/
def emit (m : Msg) (s : Sys) : Sys :=
  { s with app := (broadcast m s.app).1 }

/-- The synchronous prefix of `VideoGenerator.requestGeneration(prompt)`,
up to the `await fetch(...)` suspension point: the single-flight check on
`appState.generationInProgress`, then setting the flag, entering
`'starting'`, and broadcasting the `video_generation` announcement.
Returns the new state and the messages broadcast. -/
def requestGenerationStart (prompt : String) (s : Sys) : Sys × List Msg :=
  if s.app.generationInProgress then
    (s, [])
  else
    let s1 := { s with app := { s.app with
      generationInProgress := true
      streamStatus := StreamStatus.starting } }
    let m : Msg := { type := "video_generation"
                     content := "Starting video generation: \"" ++ prompt ++ "\"" }
    (emit m s1, [m])

/-- The parsed body of a successful `POST /ai/stream/start` response. -/
structure StartData where
  stream_id : String
  whep_url : String
deriving DecidableEq, Repr

/-- Models `VideoGenerator.startWhepConnection(whepUrl)`: creates the `WHEPClient`
(with its handlers) and awaits `connect()`, whose outcome is passed in as
`connectRes` (a resolved or rejected promise).  On rejection the catch block
sets `'error'`, clears the in-progress flag, broadcasts, and rethrows (the
rethrown message is returned as `some e`). -/
def startWhepConnection (whepUrl : String) (connectRes : Except String Unit) (s : Sys) :
    Sys × List Msg × Option String :=
  let s1 := { s with gen := { s.gen with
    whepConnection := some { whepUrl := whepUrl, isConnected := false } } }
  match connectRes with
  | Except.ok _ => (s1, [], none)
  | Except.error e =>
    let s2 := { s1 with app := { s1.app with
      streamStatus := StreamStatus.error
      generationInProgress := false } }
    let m : Msg := { type := "error", content := "WHEP connection failed: " ++ e }
    (emit m s2, [m], some e)

/-- The continuation of `VideoGenerator.requestGeneration` after the
`await fetch` / `await response.json()` suspension point.  `res` is the
awaited outcome (`Except.error e` covers a network error, a non-2xx
response — `throw new Error(...)` — and a malformed body); `connectRes` is
the outcome of the nested `await this.whepConnection.connect()`.  On
success it records `stream_id`, broadcasts, runs `startWhepConnection`, and
arms the generation timeout; any throw lands in the catch block, which sets
`'error'`, clears the flag, and broadcasts one `error` event. -/
def requestGenerationResume (res : Except String StartData)
    (connectRes : Except String Unit) (s : Sys) : Sys × List Msg :=
  match res with
  | Except.error e =>
    let s1 := { s with app := { s.app with
      streamStatus := StreamStatus.error
      generationInProgress := false } }
    let m : Msg := { type := "error", content := "Video generation failed: " ++ e }
    (emit m s1, [m])
  | Except.ok d =>
    let s1 := { s with gen := { s.gen with currentStreamId := some d.stream_id } }
    let m1 : Msg := { type := "video_generation"
                      content := "Video generation initiated. Stream ID: " ++ d.stream_id }
    let s2 := emit m1 s1
    let r := startWhepConnection d.whep_url connectRes s2
    match r.2.2 with
    | none =>
      let s4 := { r.1 with gen := { r.1.gen with
        generationTimeout := some GENERATION_TIMEOUT_MS } }
      (s4, m1 :: r.2.1)
    | some e2 =>
      let s4 := { r.1 with app := { r.1.app with
        streamStatus := StreamStatus.error
        generationInProgress := false } }
      let m2 : Msg := { type := "error", content := "Video generation failed: " ++ e2 }
      (emit m2 s4, m1 :: r.2.1 ++ [m2])

/-- The `onConnect` handler installed by `startWhepConnection`: enter
`'active'`, populate `appState.currentStream`, clear the in-progress flag,
broadcast.  Note it does not touch `generationTimeout`. -/
def onConnectHandler (whepUrl : String) (now : Nat) (s : Sys) : Sys × List Msg :=
  let s1 := { s with app := { s.app with
    streamStatus := StreamStatus.active
    currentStream := some { id := s.gen.currentStreamId, whepUrl := whepUrl, startTime := now }
    generationInProgress := false } }
  let m : Msg := { type := "video_generation"
                   content := "WHEP connection established, receiving video frames" }
  (emit m s1, [m])

/-- Models `FrameStreamer.stopReceiving()`: clears the liveness flag (the cleared
`frameInterval` is not modelled). -/
def stopReceiving (fs : FrameStreamer) : FrameStreamer :=
  { fs with hasFrames := false }

/-- The `onError` handler installed by `startWhepConnection`. -/
def onErrorHandler (e : String) (s : Sys) : Sys × List Msg :=
  let s1 := { s with app := { s.app with streamStatus := StreamStatus.error } }
  let m : Msg := { type := "error", content := "WHEP connection error: " ++ e }
  (emit m s1, [m])

/-- The `onDisconnect` handler installed by `startWhepConnection`. -/
def onDisconnectHandler (reason : String) (s : Sys) : Sys × List Msg :=
  let s1 := { s with app := { s.app with
    frameStreamer := stopReceiving s.app.frameStreamer
    streamStatus := StreamStatus.idle } }
  let m : Msg := { type := "video_generation", content := "Stream disconnected: " ++ reason }
  (emit m s1, [m])

/-- Models `VideoGenerator.handleGenerationTimeout()`: broadcast the timeout error,
then reset directly to `'idle'`, clearing the flag and the stream id. -/
def handleGenerationTimeout (s : Sys) : Sys × List Msg :=
  let m : Msg := { type := "error"
                   content := "Video generation timeout - retrying with adjusted parameters" }
  let s1 := emit m s
  let s2 := { s1 with
    app := { s1.app with
      streamStatus := StreamStatus.idle
      generationInProgress := false }
    gen := { s1.gen with currentStreamId := none } }
  (s2, [m])

/-- The armed generation timer firing: the pending `setTimeout` is consumed
and `handleGenerationTimeout` runs. -/
def fireGenerationTimeout (s : Sys) : Sys × List Msg :=
  let s1 := { s with gen := { s.gen with generationTimeout := none } }
  handleGenerationTimeout s1

/-- Models `VideoGenerator.stopCurrentGeneration()`: clear the pending timeout,
disconnect and drop the `WHEPClient`, stop the frame streamer, reset status,
stream record, stream id and the in-progress flag. -/
def stopCurrentGeneration (s : Sys) : Sys :=
  { s with
    gen := { s.gen with
      generationTimeout := none
      whepConnection := none
      currentStreamId := none }
    app := { s.app with
      frameStreamer := stopReceiving s.app.frameStreamer
      streamStatus := StreamStatus.idle
      currentStream := none
      generationInProgress := false } }

/-- Models `FrameStreamer.hasActiveFrames()`:
`this.hasFrames && (Date.now() - appState.lastFrameTime < 5000)`.
JavaScript number subtraction is modelled on `Int`. -/
def hasActiveFrames (s : AppState) (now : Nat) : Bool :=
  s.frameStreamer.hasFrames && decide ((now : Int) - (s.lastFrameTime : Int) < 5000)

/-- One inbound frame buffer as delivered by the media pipeline. -/
structure FrameData where
  width : Nat
  height : Nat
  dataB64 : Option String
deriving DecidableEq, Repr

/-- Models `FrameStreamer.processIncomingFrame(frameData)`: dropped when no
`currentStream` exists; otherwise set the liveness flag, bump the counter,
record `lastFrameTime = Date.now()`, and broadcast a `frame` event (its
structured `data` payload abbreviated to a string rendering). -/
def processIncomingFrame (fd : FrameData) (now : Nat) (s : Sys) : Sys × List Msg :=
  match s.app.currentStream with
  | none => (s, [])
  | some stream =>
    let fs1 := { s.app.frameStreamer with
      hasFrames := true
      frameCount := s.app.frameStreamer.frameCount + 1 }
    let s1 := { s with app := { s.app with frameStreamer := fs1, lastFrameTime := now } }
    let m : Msg := { type := "frame"
                     content := (stream.id.getD "") ++ ":" ++ toString fs1.frameCount
                       ++ ":" ++ toString fd.width ++ "x" ++ toString fd.height }
    (emit m s1, [m])

/-- The list `LLMBot.thoughtPatterns`. -/
def thoughtPatterns : List String :=
  ["Analyzing visual aesthetics and trending motifs...",
   "Considering color palettes that evoke specific emotions...",
   "Exploring dynamic camera movements and transitions...",
   "Thinking about narrative elements to enhance engagement...",
   "Evaluating lighting conditions for dramatic effect...",
   "Contemplating abstract vs realistic visual approaches...",
   "Processing feedback from previous generations...",
   "Adjusting parameters for optimal visual impact..."]

/-- The list `LLMBot.promptTemplates`. -/
def promptTemplates : List String :=
  ["A {adjective} {setting} with {elements}, {style} style, {technical_specs}",
   "{action} in a {environment}, featuring {visual_elements}, {atmosphere}",
   "{concept} with {colors} and {effects}, {mood} lighting, {format}"]

/-- The word list `adjectives` of `generatePrompt`. -/
def adjectives : List String :=
  ["cyberpunk", "ethereal", "dramatic", "surreal", "vibrant", "mystical"]

/-- The word list `settings` of `generatePrompt`. -/
def settingWords : List String :=
  ["cityscape", "forest", "ocean depths", "space station", "mountain peak", "desert"]

/-- The word list `elements` of `generatePrompt`. -/
def elementWords : List String :=
  ["neon lights", "floating particles", "energy beams", "crystal formations", "smoke effects"]

/-- The word list `styles` of `generatePrompt`. -/
def styleWords : List String :=
  ["cinematic", "80s retro", "abstract art", "photorealistic", "anime-inspired"]

/-- Models `arr[Math.floor(Math.random() * arr.length)]`, with the random draw
supplied as the index `i` (reduced into range). -/
def pick (l : List String) (i : Nat) : String :=
  l.getD (i % l.length) ""

/-- The random draws `generateThought` / `generatePrompt` make, passed in
explicitly. -/
structure PromptChoices where
  tmplIx : Nat
  adjIx : Nat
  setIx : Nat
  elemIx : Nat
  styleIx : Nat
  envIx : Nat
  elem2Ix : Nat
  atmIx : Nat
deriving DecidableEq, Repr

/-- The `.replace` chain of `LLMBot.generatePrompt`.  JavaScript
`String.replace` substitutes the first occurrence; each placeholder occurs
at most once per template, so Lean's replace-all agrees. -/
def buildPrompt (c : PromptChoices) : String :=
  let t := pick promptTemplates c.tmplIx
  let t := t.replace "{adjective}" (pick adjectives c.adjIx)
  let t := t.replace "{setting}" (pick settingWords c.setIx)
  let t := t.replace "{elements}" (pick elementWords c.elemIx)
  let t := t.replace "{style}" (pick styleWords c.styleIx)
  let t := t.replace "{technical_specs}" "4K resolution, smooth motion"
  let t := t.replace "{action}" "Dynamic movement"
  let t := t.replace "{environment}" (pick settingWords c.envIx)
  let t := t.replace "{visual_elements}" (pick elementWords c.elem2Ix)
  let t := t.replace "{atmosphere}" (pick adjectives c.atmIx ++ " atmosphere")
  let t := t.replace "{concept}" "Abstract visualization"
  let t := t.replace "{colors}" "vibrant neon colors"
  let t := t.replace "{effects}" "particle effects"
  let t := t.replace "{mood}" "dramatic"
  let t := t.replace "{format}" "seamless loop"
  t

/-- Models `LLMBot.generateThought()`: pick a thought, store it, broadcast it. -/
def generateThought (thoughtIx : Nat) (s : Sys) : Sys × List Msg :=
  let thought := pick thoughtPatterns thoughtIx
  let s1 := { s with bot := { s.bot with currentThought := thought } }
  let m : Msg := { type := "thought", content := thought }
  (emit m s1, [m])

/-- Models `LLMBot.generatePrompt()`: build the prompt, store it in `lastPrompt`,
broadcast it. -/
def generatePrompt (c : PromptChoices) (s : Sys) : Sys × List Msg :=
  let prompt := buildPrompt c
  let s1 := { s with bot := { s.bot with lastPrompt := prompt } }
  let m : Msg := { type := "prompt", content := prompt }
  (emit m s1, [m])

/-- The synchronous body of one `LLMBot.processCycle()` tick: only
`generateThought` runs; the rest is deferred behind a 2000 ms `setTimeout`. -/
def processCycleTick (thoughtIx : Nat) (s : Sys) : Sys × List Msg :=
  generateThought thoughtIx s

/-- The deferred callback that runs 2000 ms after the tick: generate and
broadcast the prompt, then evaluate `hasActiveFrames()` immediately; when it
is false, a second 2000 ms `setTimeout` is scheduled for the generation
call.  The returned `Bool` is whether that final callback was scheduled. -/
def processCyclePhase1 (c : PromptChoices) (now : Nat) (s : Sys) : Sys × List Msg × Bool :=
  let r := generatePrompt c s
  (r.1, r.2, !(hasActiveFrames r.1.app now))

/-- The final deferred callback (2000 ms later still):
`videoGenerator.requestGeneration(this.lastPrompt)`, with no further
liveness check. -/
def processCyclePhase2 (s : Sys) : Sys × List Msg :=
  requestGenerationStart s.bot.lastPrompt s

/-- The ICE connection states observed by
`WHEPClient.setupPeerConnectionHandlers`. -/
inductive IceState where
  | new
  | checking
  | connected
  | completed
  | disconnected
  | failed
  | closed
deriving DecidableEq, Repr

/-- The observable callback activity of one `WHEPClient`: the `isConnected`
flag plus how often `onConnect` ran and with which states `onDisconnect`
ran. -/
structure WhepClientState where
  isConnected : Bool
  onConnectCount : Nat
  onDisconnectCalls : List IceState
deriving DecidableEq, Repr

/-- A fresh `WHEPClient` (constructor sets `isConnected = false`). -/
def initWhep : WhepClientState :=
  { isConnected := false, onConnectCount := 0, onDisconnectCalls := [] }

/-- The `oniceconnectionstatechange` handler: on `connected`/`completed` set
the flag and call `onConnect`; on `disconnected`/`failed`/`closed` clear the
flag and call `onDisconnect(state)`; otherwise do nothing. -/
def iceStateChangeHandler (st : IceState) (w : WhepClientState) : WhepClientState :=
  if st == IceState.connected || st == IceState.completed then
    { w with isConnected := true, onConnectCount := w.onConnectCount + 1 }
  else if st == IceState.disconnected || st == IceState.failed || st == IceState.closed then
    { w with isConnected := false, onDisconnectCalls := w.onDisconnectCalls ++ [st] }
  else
    w

/-- Runs the handler over a sequence of ICE state-change events. -/
def runIce : List IceState → WhepClientState → WhepClientState
  | [], w => w
  | st :: sts, w => runIce sts (iceStateChangeHandler st w)

/-- A parsed client → server WebSocket message (the `data.type` dispatch of
`handleClientMessage`). -/
inductive ClientMsg where
  | startGeneration (prompt : Option String)
  | stopGeneration
  | getStatus
  | unknown (t : String)
deriving DecidableEq, Repr

/-- Models `removeClient(id)`. -/
def removeClient (id : String) (s : AppState) : AppState :=
  { s with clients := s.clients.filter (fun p => !(p.1 == id)) }

/-- Models `AppState.sendToClient(clientId, message)`: unicast with the same
failure isolation — a throwing send removes the client.  A successful
unicast send has no observable state effect, so the message is unused. -/
def sendToClient (clientId : String) (_m : Msg) (s : AppState) : AppState :=
  match s.clients.find? (fun p => p.1 == clientId) with
  | none => s
  | some p =>
    if p.2.readyState == 1 then
      if p.2.sendFails then removeClient clientId s else s
    else s

/-- Renders a `StreamStatus` the way the code's strings do. -/
def statusText : StreamStatus → String
  | StreamStatus.idle => "idle"
  | StreamStatus.starting => "starting"
  | StreamStatus.active => "active"
  | StreamStatus.error => "error"

/-- Models `handleClientMessage(clientId, data)`: dispatch on `data.type`.
`start_generation` without a prompt, and unknown types, only log. -/
def handleClientMessage (now : Nat) (clientId : String) (d : ClientMsg) (s : Sys) :
    Sys × List Msg :=
  match d with
  | ClientMsg.startGeneration p =>
    match p with
    | some prompt => requestGenerationStart prompt s
    | none => (s, [])
  | ClientMsg.stopGeneration => (stopCurrentGeneration s, [])
  | ClientMsg.getStatus =>
    let m : Msg := { type := "status_response"
                     content := statusText s.app.streamStatus ++ ":"
                       ++ toString s.app.currentStream.isSome ++ ":"
                       ++ toString (hasActiveFrames s.app now) }
    ({ s with app := sendToClient clientId m s.app }, [])
  | ClientMsg.unknown _ => (s, [])

/-- The `ws.on('message')` handler: `JSON.parse` inside `try`; a parse
failure (modelled as `none`) is caught and only logged — nothing else runs. -/
def onWsMessage (now : Nat) (clientId : String) (parsed : Option ClientMsg) (s : Sys) :
    Sys × List Msg :=
  match parsed with
  | none => (s, [])
  | some d => handleClientMessage now clientId d s

/-- The server's initial process state: fresh `AppState`, `VideoGenerator`
and `LLMBot` instances. -/
def initSys : Sys :=
  { app := initAppState
    gen := { currentStreamId := none, whepConnection := none, generationTimeout := none }
    bot := { currentThought := "", lastPrompt := "" } }

/-! Helper lemmas: `broadcast` mutates only `messages` and `clients`. -/

@[simp]
theorem broadcast_streamStatus (m : Msg) (s : AppState) :
    (broadcast m s).1.streamStatus = s.streamStatus := rfl

@[simp]
theorem broadcast_generationInProgress (m : Msg) (s : AppState) :
    (broadcast m s).1.generationInProgress = s.generationInProgress := rfl

@[simp]
theorem broadcast_frameStreamer (m : Msg) (s : AppState) :
    (broadcast m s).1.frameStreamer = s.frameStreamer := rfl

@[simp]
theorem broadcast_lastFrameTime (m : Msg) (s : AppState) :
    (broadcast m s).1.lastFrameTime = s.lastFrameTime := rfl

@[simp]
theorem broadcast_currentStream (m : Msg) (s : AppState) :
    (broadcast m s).1.currentStream = s.currentStream := rfl

@[simp]
theorem emit_gen (m : Msg) (s : Sys) : (emit m s).gen = s.gen := rfl

@[simp]
theorem emit_bot (m : Msg) (s : Sys) : (emit m s).bot = s.bot := rfl

@[simp]
theorem emit_app (m : Msg) (s : Sys) : (emit m s).app = (broadcast m s.app).1 := rfl

/-- C9: liveness threshold boundary.  With the liveness bookkeeping active
(`hasFrames = true`), `hasActiveFrames` is true exactly when
`now − lastFrameAt < 5000` ms, and at the boundary instant
`now = lastFrameAt + 5000` it is deterministically false. -/
theorem liveness_threshold_spec (s : AppState) (now T : Nat)
    (hb : s.frameStreamer.hasFrames = true) :
    (hasActiveFrames s now = true ↔ (now : Int) - (s.lastFrameTime : Int) < 5000) ∧
    hasActiveFrames { s with lastFrameTime := T } (T + 5000) = false := by
  constructor
  · simp [hasActiveFrames, hb]
  · simp [hasActiveFrames, hb]

/-- A concrete `AppState` with active liveness bookkeeping. -/
def wLiveApp : AppState :=
  { initAppState with frameStreamer := { hasFrames := true, frameCount := 1 } }

/-- Witness for C9: at `lastFrameAt = 7`, the predicate is false at the
boundary instant `7 + 5000`. -/
theorem liveness_threshold_spec_witness :
    hasActiveFrames { wLiveApp with lastFrameTime := 7 } (7 + 5000) = false :=
  (liveness_threshold_spec wLiveApp 0 7 rfl).2

/-- C10: malformed client messages are inert.  A WebSocket message whose
payload fails to parse (the `none` case of the modelled `JSON.parse`) is
caught and only logged: the state is unchanged — the subscriber registry,
the stream status, and the generator state are untouched — and nothing is
broadcast. -/
theorem malformed_message_inert_spec (now : Nat) (clientId : String) (s : Sys) :
    onWsMessage now clientId none s = (s, []) ∧
    (onWsMessage now clientId none s).1.app.clients = s.app.clients ∧
    (onWsMessage now clientId none s).1.app.streamStatus = s.app.streamStatus ∧
    (onWsMessage now clientId none s).1.gen = s.gen :=
  ⟨rfl, rfl, rfl, rfl⟩

/-- C1 (amended): the single-flight guard is exactly the
`generationInProgress` flag.  While the flag is set, `requestGeneration` is
a no-op (state unchanged, nothing broadcast); when it is clear, the call is
accepted — it sets the flag, enters `Starting`, broadcasts once — and an
immediately following call is then a no-op.  The flag, not the stream
status, decides acceptance. -/
theorem single_flight_flag_spec (p q : String) (s : Sys) :
    (s.app.generationInProgress = true → requestGenerationStart p s = (s, [])) ∧
    (s.app.generationInProgress = false →
      (requestGenerationStart p s).1.app.generationInProgress = true ∧
      (requestGenerationStart p s).1.app.streamStatus = StreamStatus.starting ∧
      (requestGenerationStart p s).2.map (fun m => m.type) = ["video_generation"] ∧
      requestGenerationStart q (requestGenerationStart p s).1
        = ((requestGenerationStart p s).1, [])) := by
  constructor
  · intro h
    simp [requestGenerationStart, h]
  · intro h
    refine ⟨?_, ?_, ?_, ?_⟩ <;> simp [requestGenerationStart, h]

/-- Witness for C1's amended theorem: from the initial state (flag clear) the
call is accepted and sets the flag. -/
theorem single_flight_flag_spec_witness :
    (requestGenerationStart "a" initSys).1.app.generationInProgress = true :=
  ((single_flight_flag_spec "a" "b" initSys).2 rfl).1

/-- The state after an accepted generation request, a successful start-API
response, a successful signaling handshake, and the ICE `onConnect`
callback: an Active Session exists, but the in-progress flag was cleared by
`onConnect`. -/
def activeSysCx : Sys :=
  (onConnectHandler "wu" 1500
    (requestGenerationResume (Except.ok { stream_id := "sid", whep_url := "wu" })
      (Except.ok ()) (requestGenerationStart "p" initSys).1).1).1

/-- C1 counterexample: with a Session in the non-Idle state `Active`, a
further `requestGeneration` call is NOT a no-op — it is accepted, moves the
status back to `Starting`, and broadcasts — because `onConnect` cleared the
`generationInProgress` guard. -/
theorem single_flight_active_cx :
    activeSysCx.app.streamStatus = StreamStatus.active ∧
    activeSysCx.app.currentStream.isSome = true ∧
    (requestGenerationStart "q" activeSysCx).1.app.streamStatus = StreamStatus.starting ∧
    (requestGenerationStart "q" activeSysCx).2.length = 1 := by
  decide

/-- C2 (amended): a `stopCurrentGeneration` issued while the start-API call
is in flight does NOT make the eventual response discarded: the resumed
continuation still records the stream id, creates the signaling connection,
and arms the generation timeout; only the stream status stays `Idle` (as the
stop left it) until a connectivity callback fires. -/
theorem stale_resume_proceeds (d : StartData) (s : Sys) :
    ((requestGenerationResume (Except.ok d) (Except.ok ())
        (stopCurrentGeneration s)).1.gen.generationTimeout = some GENERATION_TIMEOUT_MS) ∧
    ((requestGenerationResume (Except.ok d) (Except.ok ())
        (stopCurrentGeneration s)).1.gen.currentStreamId = some d.stream_id) ∧
    ((requestGenerationResume (Except.ok d) (Except.ok ())
        (stopCurrentGeneration s)).1.gen.whepConnection
        = some { whepUrl := d.whep_url, isConnected := false }) ∧
    ((requestGenerationResume (Except.ok d) (Except.ok ())
        (stopCurrentGeneration s)).1.app.streamStatus = StreamStatus.idle) :=
  ⟨rfl, rfl, rfl, rfl⟩

/-- The state reached by: accepted request, `stopCurrentGeneration` during
the in-flight start call, then the response arriving and resuming. -/
def staleResumeCx : Sys :=
  (requestGenerationResume (Except.ok { stream_id := "sid", whep_url := "wu" })
    (Except.ok ()) (stopCurrentGeneration (requestGenerationStart "p" initSys).1)).1

/-- C2 counterexample: after a stop issued mid-flight, the arriving response
is applied anyway — a timer is armed, the Session's stream id is
repopulated, and a signaling connection is created, contradicting the claim
that the response is discarded with no timer, no connection and no
Session. -/
theorem stale_discard_cx :
    staleResumeCx.gen.generationTimeout = some GENERATION_TIMEOUT_MS ∧
    staleResumeCx.gen.currentStreamId = some "sid" ∧
    staleResumeCx.gen.whepConnection = some { whepUrl := "wu", isConnected := false } := by
  decide

/-- C3 (amended): the generation timeout timer is armed (with the default
10000 ms) only after the start-API call and the signaling handshake both
succeed, not on entering `Starting`; when it fires it broadcasts exactly one
`error` event and resets directly to `Idle` — clearing the in-progress flag
and the stream id — with no intervening `Error` state; the `onConnect`
handler leaves the generator state (hence the armed timer) untouched, and
only `stopCurrentGeneration` clears the timer. -/
theorem generation_timeout_spec (d : StartData) (url : String) (now : Nat) (s : Sys) :
    ((requestGenerationResume (Except.ok d) (Except.ok ()) s).1.gen.generationTimeout
        = some GENERATION_TIMEOUT_MS) ∧
    ((fireGenerationTimeout s).2.countP (fun m => m.type == "error") = 1) ∧
    ((fireGenerationTimeout s).1.app.streamStatus = StreamStatus.idle) ∧
    ((fireGenerationTimeout s).1.app.generationInProgress = false) ∧
    ((fireGenerationTimeout s).1.gen.currentStreamId = none) ∧
    ((fireGenerationTimeout s).1.gen.generationTimeout = none) ∧
    ((onConnectHandler url now s).1.gen = s.gen) ∧
    ((stopCurrentGeneration s).gen.generationTimeout = none) :=
  ⟨rfl, rfl, rfl, rfl, rfl, rfl, rfl, rfl⟩

/-- The armed-timer state right after a fully successful resume (start-API
ok, handshake ok), before any ICE callback. -/
def timeoutCxArmed : Sys :=
  (requestGenerationResume (Except.ok { stream_id := "sid", whep_url := "wu" })
    (Except.ok ()) (requestGenerationStart "p" initSys).1).1

/-- C3 counterexample: when `Active` is reached, the timeout timer is NOT
canceled — `onConnect` leaves it armed, and it can still fire afterwards,
broadcasting a timeout `error` and knocking the active stream's status
straight to `Idle` (never through `Error`). -/
theorem timeout_cancel_cx :
    timeoutCxArmed.gen.generationTimeout = some GENERATION_TIMEOUT_MS ∧
    (onConnectHandler "wu" 1500 timeoutCxArmed).1.app.streamStatus = StreamStatus.active ∧
    (onConnectHandler "wu" 1500 timeoutCxArmed).1.gen.generationTimeout
      = some GENERATION_TIMEOUT_MS ∧
    (fireGenerationTimeout (onConnectHandler "wu" 1500 timeoutCxArmed).1).2.countP
      (fun m => m.type == "error") = 1 ∧
    (fireGenerationTimeout (onConnectHandler "wu" 1500 timeoutCxArmed).1).1.app.streamStatus
      = StreamStatus.idle := by
  decide

/-- C4 (amended): every failure of the start call (network error, non-2xx,
malformed body — all surfacing as the rejected `fetch`/`json` promise)
broadcasts exactly one `error` event carrying the failure reason and clears
the in-progress flag, so a fresh `requestGeneration` is accepted afterwards;
but the stream status is set to `Error` and left there — it is NOT reset to
`Idle` — and the generator's fields are left as they were rather than
cleared. -/
theorem start_api_failure_spec (e p : String) (c : Except String Unit) (s : Sys) :
    ((requestGenerationResume (Except.error e) c s).2
        = [{ type := "error", content := "Video generation failed: " ++ e }]) ∧
    ((requestGenerationResume (Except.error e) c s).1.app.streamStatus
        = StreamStatus.error) ∧
    ((requestGenerationResume (Except.error e) c s).1.app.generationInProgress = false) ∧
    ((requestGenerationResume (Except.error e) c s).1.gen = s.gen) ∧
    ((requestGenerationResume (Except.error e) c s).1.app.currentStream
        = s.app.currentStream) ∧
    ((requestGenerationStart p
        (requestGenerationResume (Except.error e) c s).1).1.app.generationInProgress
        = true) ∧
    ((requestGenerationStart p
        (requestGenerationResume (Except.error e) c s).1).1.app.streamStatus
        = StreamStatus.starting) :=
  ⟨rfl, rfl, rfl, rfl, rfl, rfl, rfl⟩

/-- C4 counterexample: after a non-2xx start-API response the stream status
is `Error` — the claimed immediate reset to `Idle` never happens. -/
theorem start_failure_reset_cx :
    (requestGenerationResume (Except.error "Video API responded with status: 500")
        (Except.ok ()) (requestGenerationStart "p" initSys).1).1.app.streamStatus
      = StreamStatus.error := by
  decide

/-- The delivery loop keeps exactly the clients whose send did not throw:
open clients with a failing send are removed; everyone else (including
closed clients) stays. -/
theorem deliverLoop_clients (payload : String) (cs : List (String × Client)) :
    (deliverLoop payload cs).1
      = cs.filter (fun pc => !(pc.2.readyState == 1 && pc.2.sendFails)) := by
  induction cs with
  | nil => rfl
  | cons pc rest ih =>
    obtain ⟨id, c⟩ := pc
    obtain ⟨rs, sf⟩ := c
    by_cases h1 : (rs == 1) = true
    · cases sf <;> simp [deliverLoop, h1, ih, List.filter_cons]
    · simp [deliverLoop, h1, ih, List.filter_cons]

/-- Every open, non-throwing client receives the payload. -/
theorem deliverLoop_sent (payload : String) (cs : List (String × Client)) :
    ∀ pc ∈ cs, pc.2.readyState = 1 → pc.2.sendFails = false →
      Effect.sent pc.1 payload ∈ (deliverLoop payload cs).2 := by
  induction cs with
  | nil =>
    intro pc h
    simp at h
  | cons hd rest ih =>
    intro pc hmem h1 h2
    obtain ⟨id, c⟩ := hd
    rcases List.mem_cons.mp hmem with heq | htail
    · subst heq
      have h1c : c.readyState = 1 := h1
      have h2c : c.sendFails = false := h2
      simp [deliverLoop, h1c, h2c]
    · have hrec := ih pc htail h1 h2
      by_cases ha : (c.readyState == 1) = true
      · by_cases hb : c.sendFails = true <;> simp [deliverLoop, ha, hb, hrec]
      · simp [deliverLoop, ha, hrec]

/-- The delivery loop itself never serializes. -/
theorem deliverLoop_no_serialized (payload : String) (cs : List (String × Client)) :
    (deliverLoop payload cs).2.countP isSerializedEff = 0 := by
  induction cs with
  | nil => rfl
  | cons hd rest ih =>
    obtain ⟨id, c⟩ := hd
    by_cases ha : (c.readyState == 1) = true
    · by_cases hb : c.sendFails = true <;>
        simp [deliverLoop, ha, hb, List.countP_cons, isSerializedEff, ih]
    · simp [deliverLoop, ha, ih]

/-- C5 (amended): `broadcast(event)` serializes the event exactly once;
every open subscriber whose send throws is removed as a side effect, while
subscribers whose transport reports closed are merely skipped and remain
registered; and the event is still delivered to every remaining open
subscriber, so one failing subscriber never prevents delivery to the
others. -/
theorem broadcast_isolation_spec (m : Msg) (s : AppState) :
    ((broadcast m s).2.countP isSerializedEff = 1) ∧
    ((broadcast m s).1.clients
        = s.clients.filter (fun pc => !(pc.2.readyState == 1 && pc.2.sendFails))) ∧
    (∀ pc ∈ s.clients, pc.2.readyState = 1 → pc.2.sendFails = false →
        Effect.sent pc.1 (serialize m) ∈ (broadcast m s).2) := by
  refine ⟨?_, ?_, ?_⟩
  · simp [broadcast, List.countP_cons, isSerializedEff, deliverLoop_no_serialized]
  · simp [broadcast, deliverLoop_clients]
  · intro pc hmem h1 h2
    have hrec := deliverLoop_sent (serialize m) s.clients pc hmem h1 h2
    simp only [broadcast, List.mem_cons]
    exact Or.inr hrec

/-- A concrete registry: an open subscriber, an open subscriber whose send
throws, a closed subscriber, and a final open subscriber. -/
def wIsoApp : AppState :=
  { initAppState with clients :=
      [("a", { readyState := 1, sendFails := false }),
       ("b", { readyState := 1, sendFails := true }),
       ("c", { readyState := 3, sendFails := false }),
       ("d", { readyState := 1, sendFails := false })] }

/-- The event broadcast in the C5 witness and counterexample. -/
def wIsoMsg : Msg := { type := "thought", content := "w" }

/-- Witness for C5: the open subscriber after the failing one still receives
the broadcast. -/
theorem broadcast_isolation_spec_witness :
    Effect.sent "d" (serialize wIsoMsg) ∈ (broadcast wIsoMsg wIsoApp).2 :=
  (broadcast_isolation_spec wIsoMsg wIsoApp).2.2
    ("d", { readyState := 1, sendFails := false }) (by decide) rfl rfl

/-- C5 counterexample: a subscriber whose transport reports closed
(`readyState = 3`) is NOT removed by the broadcast — only the subscriber
whose send threw is — contradicting the claim that closed subscribers are
removed as a side effect. -/
theorem broadcast_closed_removal_cx :
    (broadcast wIsoMsg wIsoApp).1.clients
      = [("a", { readyState := 1, sendFails := false }),
         ("c", { readyState := 3, sendFails := false }),
         ("d", { readyState := 1, sendFails := false })] := by
  decide

/-- Length of a JavaScript `slice(-n)`. -/
theorem sliceLast_length {α : Type} (n : Nat) (xs : List α) :
    (sliceLast n xs).length = min n xs.length := by
  simp [sliceLast]

/-- Taking the last `n` of a list no longer than `n` is the identity. -/
theorem sliceLast_of_le {α : Type} {n : Nat} {xs : List α} (h : xs.length ≤ n) :
    sliceLast n xs = xs := by
  unfold sliceLast
  rw [List.take_of_length_le (by simpa using h), List.reverse_reverse]

/-- Trimming the left list to its last `n` elements before appending does
not change the last `n` elements of the concatenation. -/
theorem sliceLast_append_left {α : Type} (n : Nat) (xs ys : List α) :
    sliceLast n (sliceLast n xs ++ ys) = sliceLast n (xs ++ ys) := by
  unfold sliceLast
  rw [List.reverse_append, List.reverse_reverse, List.reverse_append,
    List.take_append_eq_append_take, List.take_append_eq_append_take,
    List.take_take, List.length_reverse,
    Nat.min_eq_left (Nat.sub_le n ys.length)]

/-- One history push keeps the length within the bound. -/
theorem pushHistory_length_le (m : Msg) (msgs : List HistEntry)
    (h : msgs.length ≤ 50) : (pushHistory m msgs).length ≤ 50 := by
  simp only [pushHistory]
  split_ifs with h1 h2
  · rw [sliceLast_length]
    exact Nat.min_le_left _ _
  · exact Nat.le_of_not_lt h2
  · exact h

/-- For an eligible event, one history push is exactly append-then-trim. -/
theorem pushHistory_eligible (m : Msg) (msgs : List HistEntry)
    (hm : m.type ∈ historyTypes) :
    pushHistory m msgs = sliceLast 50 (msgs ++ [msgEntry m]) := by
  simp only [pushHistory]
  rw [if_pos hm]
  split_ifs with h2
  · rfl
  · exact (sliceLast_of_le (Nat.le_of_not_lt h2)).symm

/-- Any sequence of broadcasts preserves the history bound. -/
theorem broadcastSeq_length_le :
    ∀ (ms : List Msg) (s : AppState), s.messages.length ≤ 50 →
      (broadcastSeq ms s).messages.length ≤ 50 := by
  intro ms
  induction ms with
  | nil => intro s h; exact h
  | cons m ms ih =>
    intro s h
    exact ih _ (pushHistory_length_le m s.messages h)

/-- A sequence of history-eligible broadcasts leaves exactly the last 50 of
the accumulated entries, in order. -/
theorem broadcastSeq_messages :
    ∀ (ms : List Msg) (s : AppState), (∀ m ∈ ms, m.type ∈ historyTypes) →
      s.messages.length ≤ 50 →
      (broadcastSeq ms s).messages = sliceLast 50 (s.messages ++ ms.map msgEntry) := by
  intro ms
  induction ms with
  | nil =>
    intro s _ hlen
    simpa [broadcastSeq] using (sliceLast_of_le hlen).symm
  | cons m ms ih =>
    intro s hel hlen
    have hm : m.type ∈ historyTypes := hel m (List.mem_cons_self m ms)
    have hel2 : ∀ x ∈ ms, x.type ∈ historyTypes :=
      fun x hx => hel x (List.mem_cons_of_mem m hx)
    have hmsg : (broadcast m s).1.messages = pushHistory m s.messages := rfl
    have hlen2 : (broadcast m s).1.messages.length ≤ 50 := by
      rw [hmsg]
      exact pushHistory_length_le m s.messages hlen
    rw [broadcastSeq, ih (broadcast m s).1 hel2 hlen2, hmsg,
      pushHistory_eligible m s.messages hm, sliceLast_append_left,
      List.append_assoc]
    rfl

/-- C6: history bound.  Starting from any state within the 50-entry bound,
every sequence of broadcasts keeps the history length at most 50; and after
broadcasting N > 50 history-eligible events from an empty history, the
history is exactly the 50 most recent entries in broadcast order (oldest
evicted first). -/
theorem history_bound_spec (ms : List Msg) (s : AppState)
    (hlen : s.messages.length ≤ 50) :
    (broadcastSeq ms s).messages.length ≤ 50 ∧
    (s.messages = [] → (∀ m ∈ ms, m.type ∈ historyTypes) → 50 < ms.length →
      (broadcastSeq ms s).messages = sliceLast 50 (ms.map msgEntry) ∧
      (broadcastSeq ms s).messages.length = 50) := by
  refine ⟨broadcastSeq_length_le ms s hlen, ?_⟩
  intro hnil hel hgt
  have heq := broadcastSeq_messages ms s hel hlen
  rw [hnil] at heq
  simp only [List.nil_append] at heq
  refine ⟨heq, ?_⟩
  rw [heq, sliceLast_length, List.length_map]
  omega

/-- The 60 eligible events broadcast in the C6 witness. -/
def wHistMsgs : List Msg := List.replicate 60 { type := "thought", content := "t" }

/-- Witness for C6: after 60 eligible broadcasts from the initial state the
history holds exactly 50 entries. -/
theorem history_bound_spec_witness :
    (broadcastSeq wHistMsgs initAppState).messages.length = 50 :=
  ((history_bound_spec wHistMsgs initAppState (by decide)).2 rfl
    (by decide) (by decide)).2

/-- C7 (amended): the tick body itself never starts a generation — it only
broadcasts a `thought` and leaves the stream state alone.  But the liveness
predicate is evaluated once, right after the prompt is generated and BEFORE
the final 2000 ms delay (the deferred generation call is scheduled exactly
when `hasActiveFrames` is false at that moment), and the final deferred
callback then calls `requestGeneration` unconditionally, with no re-check
after the delay. -/
theorem scheduler_deferred_spec (ti : Nat) (c : PromptChoices) (now : Nat) (s : Sys) :
    ((processCycleTick ti s).1.app.streamStatus = s.app.streamStatus ∧
     (processCycleTick ti s).1.app.generationInProgress = s.app.generationInProgress ∧
     (processCycleTick ti s).2.map (fun m => m.type) = ["thought"]) ∧
    ((processCyclePhase1 c now s).2.2 = !(hasActiveFrames s.app now)) ∧
    (s.app.generationInProgress = false →
      (processCyclePhase2 s).1.app.streamStatus = StreamStatus.starting ∧
      (processCyclePhase2 s).1.app.generationInProgress = true) := by
  refine ⟨⟨rfl, rfl, rfl⟩, rfl, ?_⟩
  intro h
  constructor <;> simp [processCyclePhase2, requestGenerationStart, h]

/-- Witness for C7's amended theorem: from the initial state the deferred
callback does start a generation. -/
theorem scheduler_deferred_spec_witness :
    (processCyclePhase2 initSys).1.app.streamStatus = StreamStatus.starting :=
  ((scheduler_deferred_spec 0
      { tmplIx := 0, adjIx := 0, setIx := 0, elemIx := 0, styleIx := 0,
        envIx := 0, elem2Ix := 0, atmIx := 0 } 0 initSys).2.2 rfl).1

/-- The interleaving refuting C7's re-check conjunct, step by step: an
earlier generation is in flight when a new cycle ticks. -/
def cx7Choices : PromptChoices :=
  { tmplIx := 0, adjIx := 1, setIx := 1, elemIx := 1, styleIx := 1,
    envIx := 1, elem2Ix := 1, atmIx := 1 }

/-- Step 1: a generation request (from an earlier cycle) was accepted. -/
def cx7AfterStart : Sys := (requestGenerationStart "p1" initSys).1

/-- Step 2: a new scheduler tick broadcasts its thought. -/
def cx7AfterTick : Sys := (processCycleTick 0 cx7AfterStart).1

/-- Step 3: the post-prompt callback at t = 1000 ms — no frames yet, so the
deferred generation call is scheduled. -/
def cx7AfterPhase1 : Sys := (processCyclePhase1 cx7Choices 1000 cx7AfterTick).1

/-- Step 4: during the final delay window the pending start call resumes
successfully. -/
def cx7AfterResume : Sys :=
  (requestGenerationResume (Except.ok { stream_id := "sid", whep_url := "wu" })
    (Except.ok ()) cx7AfterPhase1).1

/-- Step 5: the handshake connects at t = 1500 ms (Session becomes Active). -/
def cx7AfterConnect : Sys := (onConnectHandler "wu" 1500 cx7AfterResume).1

/-- Step 6: a frame arrives at t = 2000 ms — the stream is now live. -/
def cx7AfterFrame : Sys :=
  (processIncomingFrame { width := 1920, height := 1080, dataB64 := none } 2000
    cx7AfterConnect).1

/-- C7 counterexample: the deferred call was scheduled (liveness false at
phase-1 time), frames started during the final wait (liveness true at
t = 3000 ms when the deferred callback runs), yet the callback still calls
`requestGeneration`, which is accepted — the call is not suppressed by the
re-evaluated liveness, contradicting the claim. -/
theorem scheduler_recheck_cx :
    (processCyclePhase1 cx7Choices 1000 cx7AfterTick).2.2 = true ∧
    hasActiveFrames cx7AfterFrame.app 3000 = true ∧
    cx7AfterFrame.app.streamStatus = StreamStatus.active ∧
    (processCyclePhase2 cx7AfterFrame).1.app.streamStatus = StreamStatus.starting ∧
    (processCyclePhase2 cx7AfterFrame).2.length = 1 := by
  decide

/-- The per-event effect of the ICE handler on the `onConnect` counter. -/
theorem runIce_onConnectCount :
    ∀ (sts : List IceState) (w : WhepClientState),
      (runIce sts w).onConnectCount
        = w.onConnectCount
          + sts.countP (fun st => st == IceState.connected || st == IceState.completed) := by
  intro sts
  induction sts with
  | nil => intro w; simp [runIce]
  | cons st rest ih =>
    intro w
    rw [runIce, ih]
    cases st <;> simp [iceStateChangeHandler, List.countP_cons] <;> omega

/-- The per-event effect of the ICE handler on the `onDisconnect` trace. -/
theorem runIce_onDisconnectCalls :
    ∀ (sts : List IceState) (w : WhepClientState),
      (runIce sts w).onDisconnectCalls
        = w.onDisconnectCalls
          ++ sts.filter (fun st =>
              st == IceState.disconnected || st == IceState.failed
                || st == IceState.closed) := by
  intro sts
  induction sts with
  | nil => intro w; simp [runIce]
  | cons st rest ih =>
    intro w
    rw [runIce, ih]
    cases st <;> simp [iceStateChangeHandler, List.filter_cons]

/-- C8 (amended): for any sequence of ICE state-change events, `onConnect`
fires once per EVENT whose new state is `connected` or `completed` (so one
handshake passing through both fires it twice), and `onDisconnect(state)`
fires once per event whose new state is `disconnected`, `failed` or
`closed`, in order; each connect-family event sets the internal flag and
each disconnect-family event clears it, and since there is no
deduplication, a re-entry into `connected` after a disconnect fires
`onConnect` again. -/
theorem ice_per_event_spec (sts : List IceState) (w : WhepClientState) :
    ((runIce sts w).onConnectCount
        = w.onConnectCount
          + sts.countP (fun st => st == IceState.connected || st == IceState.completed)) ∧
    ((runIce sts w).onDisconnectCalls
        = w.onDisconnectCalls
          ++ sts.filter (fun st =>
              st == IceState.disconnected || st == IceState.failed
                || st == IceState.closed)) ∧
    ((iceStateChangeHandler IceState.connected w).isConnected = true) ∧
    ((iceStateChangeHandler IceState.completed w).isConnected = true) ∧
    ((iceStateChangeHandler IceState.disconnected w).isConnected = false) ∧
    ((runIce [IceState.connected, IceState.disconnected, IceState.connected]
        initWhep).onConnectCount = 2) :=
  ⟨runIce_onConnectCount sts w, runIce_onDisconnectCalls sts w, rfl, rfl, rfl, rfl⟩

/-- C8 counterexample: one successful handshake whose ICE state passes
through `connected` and then `completed` — a single entry into the
connected family — fires `onConnect` twice, not exactly once; and a
`disconnected → failed → closed` teardown fires `onDisconnect` three times,
not once per transition into that family. -/
theorem ice_exactly_once_cx :
    (runIce [IceState.connected, IceState.completed] initWhep).onConnectCount = 2 ∧
    (runIce [IceState.connected, IceState.completed, IceState.disconnected,
        IceState.failed, IceState.closed] initWhep).onDisconnectCalls
      = [IceState.disconnected, IceState.failed, IceState.closed] := by
  decide

end KreaVideoBot
